import Mathlib

/-!
Verification development for the XSS Risk Detector repository
(browser extension content script + popup heuristic + local scoring service).

The definitions below are a shallow embedding of the JavaScript sources:
  * `addEvidence`, `collectStaticSignals` pieces and the runtime sink
    wrappers come from `extension/src/content.js`;
  * `calculateRiskLevel` comes from `extension/popup/popup.js`;
  * the service scoring engine (`service/app.py`) is not part of the
    provided sources, so it is modelled from the specification where needed
    (each such definition is marked in its doc comment).

JavaScript strings are modelled as Lean `String`; `substring(0, 200)` is
modelled as taking the first 200 characters of the underlying character
list; `null`/`undefined` optional inputs are modelled with `Option`.
-/

namespace XSSDetector

/-- Structured locator attached to an evidence record.  Mirrors the ad-hoc
JS location objects: always a `url`, optionally a `selector`, a traversal
`index`, a content `length` (inline-script records) and an insertion
`position` (insertAdjacentHTML records). -/
structure Location where
  url : String
  selector : Option String
  index : Option Nat
  length : Option Nat
  position : Option String
deriving DecidableEq

/-- One evidence record, as built by `addEvidence` in content.js.
`type` and `severity` are the JS string values (severity is a string key
into the popup weight table, faithful to the source). -/
structure Evidence where
  id : Nat
  time : String
  type : String
  severity : String
  location : Location
  snippet : String
  stack : Option String
deriving DecidableEq

/-- Content-script module state: `evidenceIdCounter` and `evidenceList`
(the two top-level mutable bindings of content.js). -/
structure CState where
  evidenceIdCounter : Nat
  evidenceList : List Evidence
deriving DecidableEq

/-- The initial content-script state: counter 0, empty evidence list. -/
def initialState : CState := CState.mk 0 []

/-- Model of JS `s.substring(0, n)`: the first `n` characters of `s`. -/
def jsSubstring (s : String) (n : Nat) : String := String.mk (s.data.take n)

/-- Model of JS `s.toLowerCase()`: lower-case every character. -/
def jsToLower (s : String) : String := String.mk (s.data.map Char.toLower)

/-- The snippet value stored by `addEvidence`:
JS `snippet ? snippet.substring(0, 200) : ''`.  `none` models a
`null`/`undefined` argument; the empty string is falsy in JS, hence the
explicit emptiness test. -/
def storedSnippet (snippet : Option String) : String :=
  match snippet with
  | none => ""
  | some s => if s = "" then "" else jsSubstring s 200

/-- The location value stored by `addEvidence`:
JS `location || { url: window.location.href, selector: null }`. -/
def storedLocation (pageUrl : String) (location : Option Location) : Location :=
  match location with
  | none => Location.mk pageUrl none none none none
  | some l => l

/-- `addEvidence(type, severity, snippet, location, stack = null)` from
content.js.  `pageUrl` stands for `window.location.href` and `now` for
`new Date().toISOString()`, both ambient in the browser.  Returns the
updated state together with the created record (the JS function returns
the record and pushes it onto `evidenceList`). -/
def addEvidence (pageUrl now ty sev : String) (snippet : Option String)
    (location : Option Location) (stack : Option String) (st : CState) :
    CState × Evidence :=
  let newId := st.evidenceIdCounter + 1
  let ev := Evidence.mk newId now ty sev (storedLocation pageUrl location)
    (storedSnippet snippet) stack
  (CState.mk newId (st.evidenceList ++ [ev]), ev)

/-- Result of the popup quick heuristic: `{ level, score }`. -/
structure RiskResult where
  level : String
  score : Nat
deriving DecidableEq

/-- The popup severity weight table `{ high: 10, medium: 5, low: 2 }`,
read as `severityWeights[item.severity] || 0` (unknown severity, 0). -/
def severityWeights (sev : String) : Nat :=
  if sev = "high" then 10 else if sev = "medium" then 5
  else if sev = "low" then 2 else 0

/-- `calculateRiskLevel(evidence)` from popup.js.  `none` models a
`null`/`undefined` argument (the JS `!evidence` test). -/
def calculateRiskLevel (evidence : Option (List Evidence)) : RiskResult :=
  match evidence with
  | none => RiskResult.mk "low" 0
  | some l =>
    if l.length = 0 then RiskResult.mk "low" 0
    else
      let score := l.foldl (fun s item => s + severityWeights item.severity) 0
      let level := if 50 ≤ score then "high" else if 20 ≤ score then "medium" else "low"
      RiskResult.mk level score

/-! Service scoring engine (spec-modelled).  The FastAPI service module
`service/app.py` is not among the provided source files; only its
documentation is.  The definitions in this subsection are therefore
modelled from the specification. -/

/-- Modelled from the spec: the service scoring engine of `service/app.py`
(absent from the provided sources) weights each record by severity,
high = 15, medium = 8, low = 3. -/
def serviceWeight (sev : String) : ℚ :=
  if sev = "high" then 15 else if sev = "medium" then 8
  else if sev = "low" then 3 else 0

/-- Modelled from the spec: per-type multiplier of the service scoring
engine — dynamic-code-evaluation types 2.0, markup-injection types 1.2,
all other types 1.0. -/
def typeMultiplier (ty : String) : ℚ :=
  if ty = "eval-call" ∨ ty = "function-constructor" ∨
      ty = "settimeout-string" ∨ ty = "setinterval-string" then 2
  else if ty = "innerhtml-set" ∨ ty = "outerhtml-set" ∨
      ty = "document-write" ∨ ty = "document-writeln" ∨
      ty = "insertadjacenthtml" then 12 / 10
  else 1

/-- Modelled from the spec: the service total — the sum over all records
of severity weight times type multiplier. -/
def serviceTotal (evidence : List Evidence) : ℚ :=
  (evidence.map (fun r => serviceWeight r.severity * typeMultiplier r.type)).sum

/-- Modelled from the spec: the service risk score — the weighted total,
clamped into the closed integer range [0, 100]. -/
def serviceScore (evidence : List Evidence) : Nat :=
  min 100 (⌊serviceTotal evidence⌋).toNat

/-- Modelled from the spec: verdict thresholds of the service engine,
[0,9] Safe, [10,29] Low Risk, [30,59] Medium Risk, [60,79] High Risk,
[80,100] Critical. -/
def serviceVerdict (score : Nat) : String :=
  if score ≤ 9 then "Safe" else if score ≤ 29 then "Low Risk"
  else if score ≤ 59 then "Medium Risk" else if score ≤ 79 then "High Risk"
  else "Critical"

/-- Modelled from the spec: explanation lines of the service engine are
generated from evidence counts of notable patterns, so an empty evidence
set yields an empty explanation list. -/
def serviceExplanation (evidence : List Evidence) : List String :=
  (if 0 < (evidence.filter (fun r => r.severity == "high")).length then
    ["Found " ++ toString (evidence.filter (fun r => r.severity == "high")).length
      ++ " high-severity evidence items"]
  else [])
  ++ (if evidence.any (fun r => r.type == "eval-call" || r.type == "function-constructor") then
    ["Dynamic code execution detected"]
  else [])

/-- Modelled from the spec: `supporting_evidence` is the notable
(high-severity) subset of the input records, in original order. -/
def serviceSupportingEvidence (evidence : List Evidence) : List Evidence :=
  evidence.filter (fun r => r.severity == "high")

/-! Static Scanner (rule 1: inline event handlers; rule 3: inline
scripts), from `collectStaticSignals` in content.js. -/

/-- A DOM element as far as the scanner and sink wrappers observe it:
a tag name and an attribute association list (`hasAttribute` /
`getAttribute` become lookups). -/
structure DomElement where
  tagName : String
  attrs : List (String × String)
deriving DecidableEq

/-- JS `elem.hasAttribute(attr)`. -/
def hasAttribute (e : DomElement) (a : String) : Bool :=
  (e.attrs.lookup a).isSome

/-- JS `elem.getAttribute(attr)` under a prior `hasAttribute` check
(the scanner only reads attributes it has just tested for). -/
def getAttributeD (e : DomElement) (a : String) : String :=
  (e.attrs.lookup a).getD ""

/-- The fixed inline event-handler attribute list of
`collectStaticSignals`. -/
def inlineEventAttrs : List String :=
  ["onerror", "onclick", "onload", "onmouseover", "onmouseout",
   "onmouseenter", "onmouseleave", "onfocus", "onblur", "onchange",
   "onsubmit", "onkeydown", "onkeyup", "onkeypress"]

/-- The inner `inlineEventAttrs.forEach` loop of `collectStaticSignals`
for one element `e` at traversal index `idx`: for each attribute of the
fixed list carried by the element, append one `inline-event-handler`
record of severity medium with snippet `attr="value"` and a selector
naming tag and attribute. -/
def scanAttrs (pageUrl now : String) (idx : Nat) (e : DomElement) :
    List String → CState → CState
  | [], st => st
  | a :: rest, st =>
    if hasAttribute e a then
      scanAttrs pageUrl now idx e rest
        (addEvidence pageUrl now "inline-event-handler" "medium"
          (some (a ++ "=\"" ++ getAttributeD e a ++ "\""))
          (some (Location.mk pageUrl
            (some (jsToLower e.tagName ++ "[" ++ a ++ "]")) (some idx) none none))
          none st).1
    else scanAttrs pageUrl now idx e rest st

/-- Rule 1 of `collectStaticSignals` applied to one element. -/
def scanElementHandlers (pageUrl now : String) (idx : Nat) (e : DomElement)
    (st : CState) : CState :=
  scanAttrs pageUrl now idx e inlineEventAttrs st

/-- The evidence record created for attribute `a` of element `e` when the
counter stood at `newId - 1` — the shape `scanAttrs` appends. -/
def mkHandlerEvidence (pageUrl now : String) (idx : Nat) (e : DomElement)
    (a : String) (newId : Nat) : Evidence :=
  Evidence.mk newId now "inline-event-handler" "medium"
    (Location.mk pageUrl (some (jsToLower e.tagName ++ "[" ++ a ++ "]"))
      (some idx) none none)
    (storedSnippet (some (a ++ "=\"" ++ getAttributeD e a ++ "\""))) none

/-- The list of records rule 1 appends for one element, starting from
counter value `c` (ids continue from `c + 1`). -/
def handlerRecords (pageUrl now : String) (idx : Nat) (e : DomElement) :
    List String → Nat → List Evidence
  | [], _ => []
  | a :: rest, c =>
    if hasAttribute e a then
      mkHandlerEvidence pageUrl now idx e a (c + 1) ::
        handlerRecords pageUrl now idx e rest (c + 1)
    else handlerRecords pageUrl now idx e rest c

/-- Whitespace test used by the trim model. -/
def isJsWhitespace (c : Char) : Bool :=
  (c == ' ') || (c == '\t') || (c == '\n') || (c == '\r')

/-- Model of JS `s.trim()`: strip whitespace from both ends. -/
def jsTrim (s : String) : String :=
  String.mk
    (((s.data.dropWhile isJsWhitespace).reverse.dropWhile isJsWhitespace).reverse)

/-- Rule 3 of `collectStaticSignals` for one inline `<script>` element
with text content `content` at traversal index `idx`:
`if (content && content.trim().length > 0)` append one low-severity
`inline-script` record whose snippet is the (truncated) content and whose
location stores the full untruncated `content.length`. -/
def scanInlineScript (pageUrl now : String) (idx : Nat) (content : String)
    (st : CState) : CState :=
  if content ≠ "" ∧ 0 < (jsTrim content).length then
    (addEvidence pageUrl now "inline-script" "low" (some content)
      (some (Location.mk pageUrl (some "script:not([src])") (some idx)
        (some content.length) none))
      none st).1
  else st

/-! Sink Interceptor: the wrappers installed by `hookRuntimeSinks` in
content.js.  Each original operation is a parameter (it is a host
primitive); a wrapper appends its record and then delegates to the
original with the full original argument list (JS
`original.apply(this, arguments)`), returning the original's result.
`stackTxt` stands for `new Error().stack`. -/

/-- The `code` binding of a single-parameter wrapper: the first element
of the JS `arguments` list (`String(undefined) = "undefined"` when the
call passed no arguments). -/
def argString (args : List String) : String :=
  match args with
  | [] => "undefined"
  | c :: _ => c

/-- The wrapped `window.eval`: append one high-severity `eval-call`
record, then `originalEval.apply(this, arguments)`. -/
def wrappedEval {α : Type} (origEval : List String → α)
    (pageUrl now stackTxt : String) (st : CState) (args : List String) :
    CState × α :=
  ((addEvidence pageUrl now "eval-call" "high" (some (argString args))
    (some (Location.mk pageUrl none none none none)) (some stackTxt) st).1,
   origEval args)

/-- The wrapped `window.Function`: snippet is the trailing (code)
argument, `''` when no arguments were passed. -/
def wrappedFunction {α : Type} (origFunction : List String → α)
    (pageUrl now stackTxt : String) (st : CState) (args : List String) :
    CState × α :=
  ((addEvidence pageUrl now "function-constructor" "high"
    (some (args.getLast?.getD ""))
    (some (Location.mk pageUrl none none none none)) (some stackTxt) st).1,
   origFunction args)

/-- The wrapped `document.write`. -/
def wrappedDocumentWrite {α : Type} (origWrite : List String → α)
    (pageUrl now stackTxt : String) (st : CState) (args : List String) :
    CState × α :=
  ((addEvidence pageUrl now "document-write" "medium" (some (argString args))
    (some (Location.mk pageUrl none none none none)) (some stackTxt) st).1,
   origWrite args)

/-- The wrapped `document.writeln`. -/
def wrappedDocumentWriteln {α : Type} (origWriteln : List String → α)
    (pageUrl now stackTxt : String) (st : CState) (args : List String) :
    CState × α :=
  ((addEvidence pageUrl now "document-writeln" "medium" (some (argString args))
    (some (Location.mk pageUrl none none none none)) (some stackTxt) st).1,
   origWriteln args)

/-- First argument of a scheduler call: either textual code or a function
reference (JS `typeof code === 'string'` discriminates). -/
inductive TimerArg where
  | str (code : String)
  | fn (ref : Nat)
deriving DecidableEq

/-- The wrapped `window.setTimeout`: record only when the first argument
is a string; delegate in both cases. -/
def wrappedSetTimeout {α : Type} (origSetTimeout : TimerArg → Int → α)
    (pageUrl now stackTxt : String) (st : CState) (code : TimerArg)
    (delay : Int) : CState × α :=
  let st1 := match code with
    | TimerArg.str s =>
      (addEvidence pageUrl now "settimeout-string" "high" (some s)
        (some (Location.mk pageUrl none none none none)) (some stackTxt) st).1
    | TimerArg.fn _ => st
  (st1, origSetTimeout code delay)

/-- The wrapped `window.setInterval`: same shape as `wrappedSetTimeout`. -/
def wrappedSetInterval {α : Type} (origSetInterval : TimerArg → Int → α)
    (pageUrl now stackTxt : String) (st : CState) (code : TimerArg)
    (delay : Int) : CState × α :=
  let st1 := match code with
    | TimerArg.str s =>
      (addEvidence pageUrl now "setinterval-string" "high" (some s)
        (some (Location.mk pageUrl none none none none)) (some stackTxt) st).1
    | TimerArg.fn _ => st
  (st1, origSetInterval code delay)

/-- The selector recorded by the markup-property wrappers:
JS `this.tagName ? this.tagName.toLowerCase() : 'unknown'`. -/
def tagSelector (self : DomElement) : String :=
  if self.tagName = "" then "unknown" else jsToLower self.tagName

/-- The wrapped `innerHTML` setter: record, then delegate to the original
setter with the same receiver (`this`) and value. -/
def wrappedInnerHTMLSet {α : Type} (origSet : DomElement → String → α)
    (pageUrl now stackTxt : String) (st : CState) (self : DomElement)
    (value : String) : CState × α :=
  ((addEvidence pageUrl now "innerhtml-set" "medium" (some value)
    (some (Location.mk pageUrl (some (tagSelector self)) none none none))
    (some stackTxt) st).1,
   origSet self value)

/-- The wrapped `outerHTML` setter. -/
def wrappedOuterHTMLSet {α : Type} (origSet : DomElement → String → α)
    (pageUrl now stackTxt : String) (st : CState) (self : DomElement)
    (value : String) : CState × α :=
  ((addEvidence pageUrl now "outerhtml-set" "medium" (some value)
    (some (Location.mk pageUrl (some (tagSelector self)) none none none))
    (some stackTxt) st).1,
   origSet self value)

/-- The wrapped `insertAdjacentHTML`: the location additionally records
the insertion position. -/
def wrappedInsertAdjacentHTML {α : Type} (orig : DomElement → String → String → α)
    (pageUrl now stackTxt : String) (st : CState) (self : DomElement)
    (position text : String) : CState × α :=
  ((addEvidence pageUrl now "insertadjacenthtml" "medium" (some text)
    (some (Location.mk pageUrl (some (tagSelector self)) none none
      (some position)))
    (some stackTxt) st).1,
   orig self position text)

/-- Splitting a character list at every occurrence of `c`. -/
def splitOnChar (c : Char) : List Char → List (List Char)
  | [] => [[]]
  | x :: xs =>
    match splitOnChar c xs, decide (x = c) with
    | r, true => [] :: r
    | [], false => [[x]]
    | y :: ys, false => (x :: y) :: ys

/-- Decimal value of a digit character. -/
def digitVal (c : Char) : Option Nat :=
  if c.isDigit then some (c.toNat - 48) else none

/-- Parsing a non-empty digit string into a natural number. -/
def parseNatChars (l : List Char) : Option Nat :=
  match l with
  | [] => none
  | _ =>
    l.foldl
      (fun acc c =>
        match acc, digitVal c with
        | some n, some d => some (n * 10 + d)
        | _, _ => none)
      (some 0)

/-- A tiny concrete model of the host evaluator for arithmetic sums:
splits the first argument on `+` and adds the parsed numerals, so that
evaluating the code string `1+1` really computes `2`. -/
def evalArithSum (args : List String) : Option Nat :=
  match args with
  | [] => none
  | code :: _ => ((splitOnChar '+' code.data).mapM parseNatChars).map List.sum

/-! Installation model for re-installation behaviour.  `hookRuntimeSinks`
stores the current `window.eval` as `originalEval` and overwrites the slot
with a fresh wrapper; running it again wraps the wrapper.  The slot is
therefore a tower of wrappers over the host primitive, represented by its
depth. -/

/-- The `window.eval` slot together with the evidence state: `depth` is
the number of wrapper layers installed over the host primitive. -/
structure EvalSlotState where
  depth : Nat
  st : CState
deriving DecidableEq

/-- `hookRuntimeSinks` (eval part): captures the current slot content as
the original and installs one more wrapper layer.  The source has no
installed-flag guard, so every call adds a layer. -/
def hookRuntimeSinks (s : EvalSlotState) : EvalSlotState :=
  EvalSlotState.mk (s.depth + 1) s.st

/-- Invoking the `window.eval` slot at wrapper depth `d`: each layer
appends its `eval-call` record and calls the next layer with the same
arguments; the innermost layer is the host primitive. -/
def invokeEvalSlot {α : Type} (origEval : List String → α)
    (pageUrl now stackTxt : String) : Nat → CState → List String → CState × α
  | 0, st, args => (st, origEval args)
  | d + 1, st, args =>
    invokeEvalSlot origEval pageUrl now stackTxt d
      (addEvidence pageUrl now "eval-call" "high" (some (argString args))
        (some (Location.mk pageUrl none none none none)) (some stackTxt) st).1
      args

/-- One abstract append request: the per-call arguments of
`addEvidence`.  A page session is a list of such requests. -/
structure AppendReq where
  ty : String
  sev : String
  snip : Option String
  loc : Option Location
  stk : Option String
deriving DecidableEq

/-- Running a session: fold `addEvidence` over a list of requests. -/
def runAppends (pageUrl now : String) (reqs : List AppendReq) (st : CState) :
    CState :=
  reqs.foldl
    (fun s r => (addEvidence pageUrl now r.ty r.sev r.snip r.loc r.stk s).1) st

/-! Helper lemmas. -/

/-- The popup score accumulator is the sum of the per-record weights. -/
theorem foldl_severityWeights (l : List Evidence) (n : Nat) :
    l.foldl (fun s item => s + severityWeights item.severity) n
      = n + (l.map (fun r => severityWeights r.severity)).sum := by
  induction l generalizing n with
  | nil => simp
  | cons a t ih => simp [ih, Nat.add_assoc]

/-- Sample record: a high-severity `eval-call` observation. -/
def evEval : Evidence :=
  Evidence.mk 1 "t0" "eval-call" "high"
    (Location.mk "u" none none none none) "eval(x)" none

/-- Sample record: a high-severity `javascript-protocol` observation. -/
def evJsProto : Evidence :=
  Evidence.mk 2 "t0" "javascript-protocol" "high"
    (Location.mk "u" none none none none) "href" none

/-- Sample record: a medium-severity `innerhtml-set` observation. -/
def evInner : Evidence :=
  Evidence.mk 3 "t0" "innerhtml-set" "medium"
    (Location.mk "u" none none none none) "abc" none

/-! Claim theorems. -/

/-- C2: scoring is order-independent and pure — for every evidence list
and every permutation of it, the popup quick heuristic
`calculateRiskLevel` yields an identical result, and the service scoring
engine yields an identical score and verdict. -/
theorem scoring_order_independent (l1 l2 : List Evidence) (h : l1.Perm l2) :
    calculateRiskLevel (some l1) = calculateRiskLevel (some l2)
    ∧ serviceScore l1 = serviceScore l2
    ∧ serviceVerdict (serviceScore l1) = serviceVerdict (serviceScore l2) := by
  have hlen : l1.length = l2.length := h.length_eq
  have hsum : (l1.map (fun r => severityWeights r.severity)).sum
      = (l2.map (fun r => severityWeights r.severity)).sum :=
    (h.map (fun r => severityWeights r.severity)).sum_eq
  have hq : serviceTotal l1 = serviceTotal l2 := by
    unfold serviceTotal
    exact List.Perm.sum_eq (List.Perm.map _ h)
  have hs : serviceScore l1 = serviceScore l2 := by
    simp [serviceScore, hq]
  refine ⟨?_, hs, by rw [hs]⟩
  simp [calculateRiskLevel, foldl_severityWeights, hsum, hlen]

/-- C2 witness: a concrete two-record list and its swap give identical
popup results and identical service scores. -/
theorem scoring_order_independent_witness :
    ([evEval, evInner] : List Evidence).Perm [evInner, evEval]
    ∧ calculateRiskLevel (some [evEval, evInner])
        = calculateRiskLevel (some [evInner, evEval])
    ∧ serviceScore [evEval, evInner] = serviceScore [evInner, evEval] :=
  ⟨List.Perm.swap evInner evEval [],
   (scoring_order_independent [evEval, evInner] [evInner, evEval]
      (List.Perm.swap evInner evEval [])).1,
   (scoring_order_independent [evEval, evInner] [evInner, evEval]
      (List.Perm.swap evInner evEval [])).2.1⟩

/-- C3: empty or absent evidence input still yields a complete
well-formed result — the popup heuristic returns score 0 at the lowest
level for an absent (`null`) or empty list, and the service engine
returns score 0, verdict Safe, and empty explanation and
supporting-evidence lists. -/
theorem empty_evidence_safe_report :
    calculateRiskLevel none = RiskResult.mk "low" 0
    ∧ calculateRiskLevel (some []) = RiskResult.mk "low" 0
    ∧ serviceScore [] = 0
    ∧ serviceVerdict (serviceScore []) = "Safe"
    ∧ serviceExplanation [] = []
    ∧ serviceSupportingEvidence [] = [] := by
  have hs : serviceScore [] = 0 := by simp [serviceScore, serviceTotal]
  exact ⟨by decide, by decide, hs, by rw [hs]; decide, by decide, by decide⟩

/-- C8: the popup quick-estimate score is the sum of the severity
weights (high = 10, medium = 5, low = 2) over the records; two
high-severity records plus one medium-severity record score 25 and land
in the `medium` quick-level band. -/
theorem popup_score_severity_sum :
    (∀ l : List Evidence, (calculateRiskLevel (some l)).score
        = (l.map (fun r => severityWeights r.severity)).sum)
    ∧ severityWeights "high" = 10 ∧ severityWeights "medium" = 5
    ∧ severityWeights "low" = 2
    ∧ calculateRiskLevel (some [evEval, evJsProto, evInner])
        = RiskResult.mk "medium" 25 := by
  refine ⟨?_, by decide, by decide, by decide, by decide⟩
  intro l
  cases l with
  | nil => simp [calculateRiskLevel]
  | cons a t => simp [calculateRiskLevel, foldl_severityWeights]

/-- C10: `addEvidence` is total over missing optional inputs — a
`null`/`undefined` or empty snippet is stored as the empty string, an
omitted location defaults to the page URL with a null selector, and the
stack field is `null` when not supplied. -/
theorem addEvidence_defaults (pageUrl now ty sev : String)
    (snip : Option String) (loc : Option Location) (stk : Option String)
    (st : CState) :
    ((addEvidence pageUrl now ty sev none loc stk st).2).snippet = ""
    ∧ ((addEvidence pageUrl now ty sev (some "") loc stk st).2).snippet = ""
    ∧ ((addEvidence pageUrl now ty sev snip none stk st).2).location
        = Location.mk pageUrl none none none none
    ∧ ((addEvidence pageUrl now ty sev snip loc none st).2).stack = none :=
  ⟨rfl, by simp [addEvidence, storedSnippet], rfl, rfl⟩

/-- C4: every stored snippet has length at most 200; a snippet source
longer than 200 units is truncated to exactly 200 units; and the Static
Scanner's inline-script record stores the full untruncated content
length in its location metadata while its snippet is truncated. -/
theorem snippet_truncation :
    (∀ (pageUrl now ty sev : String) (snip : Option String)
        (loc : Option Location) (stk : Option String) (st : CState),
      ((addEvidence pageUrl now ty sev snip loc stk st).2).snippet.length ≤ 200)
    ∧ (∀ (pageUrl now ty sev : String) (s : String) (loc : Option Location)
        (stk : Option String) (st : CState), 200 < s.length →
      ((addEvidence pageUrl now ty sev (some s) loc stk st).2).snippet
          = jsSubstring s 200
      ∧ ((addEvidence pageUrl now ty sev (some s) loc stk st).2).snippet.length
          = 200)
    ∧ (∀ (pageUrl now : String) (idx : Nat) (content : String) (st : CState),
        content ≠ "" → 0 < (jsTrim content).length →
      (scanInlineScript pageUrl now idx content st).evidenceList
        = st.evidenceList ++
          [Evidence.mk (st.evidenceIdCounter + 1) now "inline-script" "low"
            (Location.mk pageUrl (some "script:not([src])") (some idx)
              (some content.length) none)
            (storedSnippet (some content)) none]) := by
  refine ⟨?_, ?_, ?_⟩
  · intro pageUrl now ty sev snip loc stk st
    show (storedSnippet snip).length ≤ 200
    match snip with
    | none => simp [storedSnippet]
    | some s =>
      by_cases hs : s = ""
      · simp [storedSnippet, hs]
      · show (if s = "" then "" else jsSubstring s 200).length ≤ 200
        rw [if_neg hs]
        show (s.data.take 200).length ≤ 200
        simp
  · intro pageUrl now ty sev s loc stk st h
    have hs : s ≠ "" := by
      intro e
      rw [e] at h
      exact absurd h (by decide)
    have hlen : ((addEvidence pageUrl now ty sev (some s) loc stk st).2).snippet
        = jsSubstring s 200 := by
      show (if s = "" then "" else jsSubstring s 200) = jsSubstring s 200
      rw [if_neg hs]
    refine ⟨hlen, ?_⟩
    rw [hlen]
    show (s.data.take 200).length = 200
    have h' : 200 < s.data.length := h
    rw [List.length_take]
    omega
  · intro pageUrl now idx content st h1 h2
    show (if content ≠ "" ∧ 0 < (jsTrim content).length then _ else st).evidenceList = _
    rw [if_pos ⟨h1, h2⟩]
    rfl

/-- Concrete 201-character content string. -/
def s201 : String := String.mk (List.replicate 201 'a')

set_option maxRecDepth 8000 in
/-- C4 witness: a 201-unit snippet is stored truncated to exactly 200
units, and the inline-script record for it keeps the full length 201 in
its location metadata. -/
theorem snippet_truncation_witness :
    200 < s201.length
    ∧ ((addEvidence "u" "t" "eval-call" "high" (some s201) none none
        initialState).2).snippet.length = 200
    ∧ s201 ≠ "" ∧ 0 < (jsTrim s201).length
    ∧ (scanInlineScript "u" "t" 0 s201 initialState).evidenceList
        = initialState.evidenceList ++
          [Evidence.mk 1 "t" "inline-script" "low"
            (Location.mk "u" (some "script:not([src])") (some 0)
              (some s201.length) none)
            (storedSnippet (some s201)) none] :=
  ⟨by decide,
   (snippet_truncation.2.1 "u" "t" "eval-call" "high" s201 none none
      initialState (by decide)).2,
   by decide, by decide,
   snippet_truncation.2.2 "u" "t" 0 s201 initialState (by decide) (by decide)⟩

/-! Session id invariant (C5). -/

/-- The invariant maintained by `addEvidence`: the stored records have
strictly increasing ids, all bounded by the current counter. -/
def goodState (st : CState) : Prop :=
  st.evidenceList.Pairwise (fun a b => a.id < b.id)
  ∧ ∀ r ∈ st.evidenceList, r.id ≤ st.evidenceIdCounter

/-- `addEvidence` preserves the id invariant. -/
theorem goodState_addEvidence (pageUrl now ty sev : String)
    (snip : Option String) (loc : Option Location) (stk : Option String)
    (st : CState) (h : goodState st) :
    goodState (addEvidence pageUrl now ty sev snip loc stk st).1 := by
  obtain ⟨hp, hb⟩ := h
  constructor
  · show (st.evidenceList ++ [_]).Pairwise _
    refine List.pairwise_append.2 ⟨hp, List.pairwise_singleton _ _, ?_⟩
    intro a ha b hbmem
    rw [List.mem_singleton] at hbmem
    subst hbmem
    exact Nat.lt_succ_of_le (hb a ha)
  · intro r hr
    rcases List.mem_append.1 hr with hmem | hmem
    · exact Nat.le_succ_of_le (hb r hmem)
    · rw [List.mem_singleton] at hmem
      subst hmem
      exact Nat.le_refl _


/-- `runAppends` preserves the id invariant. -/
theorem goodState_runAppends (pageUrl now : String) (reqs : List AppendReq) :
    ∀ st : CState, goodState st → goodState (runAppends pageUrl now reqs st) := by
  induction reqs with
  | nil => intro st h; exact h
  | cons r rest ih =>
    intro st h
    exact ih _ (goodState_addEvidence pageUrl now r.ty r.sev r.snip r.loc r.stk st h)

/-- C5: for every sequence of appends within one page session starting
from the initial state, the stored `id` values are strictly increasing
with insertion order and unique. -/
theorem ids_strictly_increasing (pageUrl now : String) (reqs : List AppendReq) :
    ((runAppends pageUrl now reqs initialState).evidenceList.Pairwise
      (fun a b => a.id < b.id))
    ∧ ((runAppends pageUrl now reqs initialState).evidenceList.map
        Evidence.id).Nodup := by
  have h := goodState_runAppends pageUrl now reqs initialState
    ⟨List.Pairwise.nil, by intro r hr; exact absurd hr (List.not_mem_nil r)⟩
  exact ⟨h.1, List.Pairwise.map Evidence.id
    (fun a b hab => Nat.ne_of_lt hab) h.1⟩

/-! Static Scanner rule 1 characterisation (C7). -/

/-- Unfolding of the state component of `addEvidence`. -/
theorem addEvidence_fst (pageUrl now ty sev : String) (snip : Option String)
    (loc : Option Location) (stk : Option String) (st : CState) :
    (addEvidence pageUrl now ty sev snip loc stk st).1
      = CState.mk (st.evidenceIdCounter + 1)
          (st.evidenceList
            ++ [(addEvidence pageUrl now ty sev snip loc stk st).2]) := rfl

/-- `scanAttrs` appends exactly the records described by
`handlerRecords`, advancing the counter by their number. -/
theorem scanAttrs_eq (pageUrl now : String) (idx : Nat) (e : DomElement) :
    ∀ (attrs : List String) (st : CState),
      scanAttrs pageUrl now idx e attrs st
        = CState.mk
            (st.evidenceIdCounter
              + (handlerRecords pageUrl now idx e attrs st.evidenceIdCounter).length)
            (st.evidenceList
              ++ handlerRecords pageUrl now idx e attrs st.evidenceIdCounter) := by
  intro attrs
  induction attrs with
  | nil => intro st; simp [scanAttrs, handlerRecords]
  | cons a rest ih =>
    intro st
    by_cases h : hasAttribute e a
    · rw [scanAttrs, if_pos h, addEvidence_fst, ih]
      dsimp only
      rw [handlerRecords, if_pos h]
      rw [CState.mk.injEq]
      constructor
      · rw [List.length_cons]
        omega
      · rw [List.append_assoc]
        rfl
    · rw [scanAttrs, if_neg h, ih, handlerRecords, if_neg h]

/-- The number of records rule 1 emits for one element equals the number
of matching event-handler attributes it carries. -/
theorem handlerRecords_length (pageUrl now : String) (idx : Nat)
    (e : DomElement) :
    ∀ (attrs : List String) (c : Nat),
      (handlerRecords pageUrl now idx e attrs c).length
        = (attrs.filter (fun a => hasAttribute e a)).length := by
  intro attrs
  induction attrs with
  | nil => intro c; rfl
  | cons a rest ih =>
    intro c
    by_cases h : hasAttribute e a
    · rw [handlerRecords, if_pos h, List.length_cons, ih,
        List.filter_cons_of_pos h, List.length_cons]
    · rw [handlerRecords, if_neg h, ih,
        List.filter_cons_of_neg (by simpa using h)]

/-- Every record rule 1 emits is a `mkHandlerEvidence` for one of the
matching attributes. -/
theorem handlerRecords_mem (pageUrl now : String) (idx : Nat)
    (e : DomElement) :
    ∀ (attrs : List String) (c : Nat) (r : Evidence),
      r ∈ handlerRecords pageUrl now idx e attrs c →
      ∃ a i, a ∈ attrs ∧ hasAttribute e a = true
        ∧ r = mkHandlerEvidence pageUrl now idx e a i := by
  intro attrs
  induction attrs with
  | nil => intro c r hr; exact absurd hr (List.not_mem_nil r)
  | cons a rest ih =>
    intro c r hr
    by_cases h : hasAttribute e a
    · rw [handlerRecords, if_pos h, List.mem_cons] at hr
      rcases hr with hr | hr
      · exact ⟨a, c + 1, List.mem_cons_self a rest, h, hr⟩
      · obtain ⟨b, i, hb, hhas, heq⟩ := ih (c + 1) r hr
        exact ⟨b, i, List.mem_cons_of_mem a hb, hhas, heq⟩
    · rw [handlerRecords, if_neg h] at hr
      obtain ⟨b, i, hb, hhas, heq⟩ := ih c r hr
      exact ⟨b, i, List.mem_cons_of_mem a hb, hhas, heq⟩

/-- C7: for every element carrying k attributes of the fixed
event-handler list, rule 1 of the Static Scanner emits exactly k
`inline-event-handler` records — one per matching attribute — each with
severity medium, snippet `attr="attrValue"`, and a location naming the
tag, the attribute and the traversal index. -/
theorem inline_event_handler_per_attribute (pageUrl now : String)
    (idx : Nat) (e : DomElement) (st : CState) :
    (scanElementHandlers pageUrl now idx e st).evidenceList
      = st.evidenceList
        ++ handlerRecords pageUrl now idx e inlineEventAttrs st.evidenceIdCounter
    ∧ (handlerRecords pageUrl now idx e inlineEventAttrs st.evidenceIdCounter).length
      = (inlineEventAttrs.filter (fun a => hasAttribute e a)).length
    ∧ ∀ r ∈ handlerRecords pageUrl now idx e inlineEventAttrs st.evidenceIdCounter,
        r.type = "inline-event-handler" ∧ r.severity = "medium"
        ∧ ∃ a, a ∈ inlineEventAttrs ∧ hasAttribute e a = true
          ∧ r.snippet = storedSnippet (some (a ++ "=\"" ++ getAttributeD e a ++ "\""))
          ∧ r.location = Location.mk pageUrl
              (some (jsToLower e.tagName ++ "[" ++ a ++ "]")) (some idx) none none := by
  refine ⟨?_, handlerRecords_length pageUrl now idx e inlineEventAttrs _, ?_⟩
  · rw [scanElementHandlers, scanAttrs_eq]
  · intro r hr
    obtain ⟨a, i, ha, hhas, heq⟩ :=
      handlerRecords_mem pageUrl now idx e inlineEventAttrs _ r hr
    subst heq
    exact ⟨rfl, rfl, a, ha, hhas, rfl, rfl⟩

/-- C1: every installed sink wrapper appends one evidence record and then
delegates to the original operation with the same receiver and the full
original argument list, returning exactly the original's result; in
particular the wrapped evaluator on the code string `1+1` still evaluates
it to `2` while appending exactly one high-severity `eval-call` record.
(The delayed-execution schedulers append their record on textual-code
arguments; their function-reference behaviour is stated separately.) -/
theorem sink_wrappers_record_then_delegate :
    (∀ (α : Type) (origEval : List String → α) (pageUrl now stackTxt : String)
        (st : CState) (args : List String),
      (wrappedEval origEval pageUrl now stackTxt st args).2 = origEval args
      ∧ (wrappedEval origEval pageUrl now stackTxt st args).1.evidenceList
          = st.evidenceList
            ++ [Evidence.mk (st.evidenceIdCounter + 1) now "eval-call" "high"
                (Location.mk pageUrl none none none none)
                (storedSnippet (some (argString args))) (some stackTxt)])
    ∧ (∀ (α : Type) (origFunction : List String → α) (pageUrl now stackTxt : String)
        (st : CState) (args : List String),
      (wrappedFunction origFunction pageUrl now stackTxt st args).2 = origFunction args
      ∧ (wrappedFunction origFunction pageUrl now stackTxt st args).1.evidenceList
          = st.evidenceList
            ++ [Evidence.mk (st.evidenceIdCounter + 1) now "function-constructor" "high"
                (Location.mk pageUrl none none none none)
                (storedSnippet (some (args.getLast?.getD ""))) (some stackTxt)])
    ∧ (∀ (α : Type) (origWrite : List String → α) (pageUrl now stackTxt : String)
        (st : CState) (args : List String),
      (wrappedDocumentWrite origWrite pageUrl now stackTxt st args).2 = origWrite args
      ∧ (wrappedDocumentWrite origWrite pageUrl now stackTxt st args).1.evidenceList
          = st.evidenceList
            ++ [Evidence.mk (st.evidenceIdCounter + 1) now "document-write" "medium"
                (Location.mk pageUrl none none none none)
                (storedSnippet (some (argString args))) (some stackTxt)])
    ∧ (∀ (α : Type) (origWriteln : List String → α) (pageUrl now stackTxt : String)
        (st : CState) (args : List String),
      (wrappedDocumentWriteln origWriteln pageUrl now stackTxt st args).2 = origWriteln args
      ∧ (wrappedDocumentWriteln origWriteln pageUrl now stackTxt st args).1.evidenceList
          = st.evidenceList
            ++ [Evidence.mk (st.evidenceIdCounter + 1) now "document-writeln" "medium"
                (Location.mk pageUrl none none none none)
                (storedSnippet (some (argString args))) (some stackTxt)])
    ∧ (∀ (α : Type) (origSetTimeout : TimerArg → Int → α) (pageUrl now stackTxt : String)
        (st : CState) (s : String) (delay : Int),
      (wrappedSetTimeout origSetTimeout pageUrl now stackTxt st (TimerArg.str s) delay).2
          = origSetTimeout (TimerArg.str s) delay
      ∧ (wrappedSetTimeout origSetTimeout pageUrl now stackTxt st (TimerArg.str s) delay).1.evidenceList
          = st.evidenceList
            ++ [Evidence.mk (st.evidenceIdCounter + 1) now "settimeout-string" "high"
                (Location.mk pageUrl none none none none)
                (storedSnippet (some s)) (some stackTxt)])
    ∧ (∀ (α : Type) (origSetInterval : TimerArg → Int → α) (pageUrl now stackTxt : String)
        (st : CState) (s : String) (delay : Int),
      (wrappedSetInterval origSetInterval pageUrl now stackTxt st (TimerArg.str s) delay).2
          = origSetInterval (TimerArg.str s) delay
      ∧ (wrappedSetInterval origSetInterval pageUrl now stackTxt st (TimerArg.str s) delay).1.evidenceList
          = st.evidenceList
            ++ [Evidence.mk (st.evidenceIdCounter + 1) now "setinterval-string" "high"
                (Location.mk pageUrl none none none none)
                (storedSnippet (some s)) (some stackTxt)])
    ∧ (∀ (α : Type) (origSet : DomElement → String → α) (pageUrl now stackTxt : String)
        (st : CState) (self : DomElement) (value : String),
      (wrappedInnerHTMLSet origSet pageUrl now stackTxt st self value).2 = origSet self value
      ∧ (wrappedInnerHTMLSet origSet pageUrl now stackTxt st self value).1.evidenceList
          = st.evidenceList
            ++ [Evidence.mk (st.evidenceIdCounter + 1) now "innerhtml-set" "medium"
                (Location.mk pageUrl (some (tagSelector self)) none none none)
                (storedSnippet (some value)) (some stackTxt)])
    ∧ (∀ (α : Type) (origSet : DomElement → String → α) (pageUrl now stackTxt : String)
        (st : CState) (self : DomElement) (value : String),
      (wrappedOuterHTMLSet origSet pageUrl now stackTxt st self value).2 = origSet self value
      ∧ (wrappedOuterHTMLSet origSet pageUrl now stackTxt st self value).1.evidenceList
          = st.evidenceList
            ++ [Evidence.mk (st.evidenceIdCounter + 1) now "outerhtml-set" "medium"
                (Location.mk pageUrl (some (tagSelector self)) none none none)
                (storedSnippet (some value)) (some stackTxt)])
    ∧ (∀ (α : Type) (orig : DomElement → String → String → α) (pageUrl now stackTxt : String)
        (st : CState) (self : DomElement) (position text : String),
      (wrappedInsertAdjacentHTML orig pageUrl now stackTxt st self position text).2
          = orig self position text
      ∧ (wrappedInsertAdjacentHTML orig pageUrl now stackTxt st self position text).1.evidenceList
          = st.evidenceList
            ++ [Evidence.mk (st.evidenceIdCounter + 1) now "insertadjacenthtml" "medium"
                (Location.mk pageUrl (some (tagSelector self)) none none (some position))
                (storedSnippet (some text)) (some stackTxt)])
    ∧ ((wrappedEval evalArithSum "u" "t" "k" initialState ["1+1"]).2 = some 2
      ∧ (wrappedEval evalArithSum "u" "t" "k" initialState ["1+1"]).1.evidenceList
          = [Evidence.mk 1 "t" "eval-call" "high"
              (Location.mk "u" none none none none) "1+1" (some "k")]) :=
  ⟨fun _ _ _ _ _ _ _ => ⟨rfl, rfl⟩,
   fun _ _ _ _ _ _ _ => ⟨rfl, rfl⟩,
   fun _ _ _ _ _ _ _ => ⟨rfl, rfl⟩,
   fun _ _ _ _ _ _ _ => ⟨rfl, rfl⟩,
   fun _ _ _ _ _ _ _ _ => ⟨rfl, rfl⟩,
   fun _ _ _ _ _ _ _ _ => ⟨rfl, rfl⟩,
   fun _ _ _ _ _ _ _ _ => ⟨rfl, rfl⟩,
   fun _ _ _ _ _ _ _ _ => ⟨rfl, rfl⟩,
   fun _ _ _ _ _ _ _ _ _ => ⟨rfl, rfl⟩,
   by decide, by decide⟩

/-- C6: the wrapped schedulers record conditionally on the argument type —
a textual first argument appends exactly one high-severity
`settimeout-string`/`setinterval-string` record, a function reference
appends nothing, and the call delegates to the original scheduler in both
cases. -/
theorem scheduler_string_conditional :
    (∀ (α : Type) (orig : TimerArg → Int → α) (pageUrl now stackTxt : String)
        (st : CState) (s : String) (delay : Int),
      (wrappedSetTimeout orig pageUrl now stackTxt st (TimerArg.str s) delay).1.evidenceList
        = st.evidenceList
          ++ [Evidence.mk (st.evidenceIdCounter + 1) now "settimeout-string" "high"
              (Location.mk pageUrl none none none none)
              (storedSnippet (some s)) (some stackTxt)]
      ∧ (wrappedSetTimeout orig pageUrl now stackTxt st (TimerArg.str s) delay).2
          = orig (TimerArg.str s) delay)
    ∧ (∀ (α : Type) (orig : TimerArg → Int → α) (pageUrl now stackTxt : String)
        (st : CState) (f : Nat) (delay : Int),
      (wrappedSetTimeout orig pageUrl now stackTxt st (TimerArg.fn f) delay).1 = st
      ∧ (wrappedSetTimeout orig pageUrl now stackTxt st (TimerArg.fn f) delay).2
          = orig (TimerArg.fn f) delay)
    ∧ (∀ (α : Type) (orig : TimerArg → Int → α) (pageUrl now stackTxt : String)
        (st : CState) (s : String) (delay : Int),
      (wrappedSetInterval orig pageUrl now stackTxt st (TimerArg.str s) delay).1.evidenceList
        = st.evidenceList
          ++ [Evidence.mk (st.evidenceIdCounter + 1) now "setinterval-string" "high"
              (Location.mk pageUrl none none none none)
              (storedSnippet (some s)) (some stackTxt)]
      ∧ (wrappedSetInterval orig pageUrl now stackTxt st (TimerArg.str s) delay).2
          = orig (TimerArg.str s) delay)
    ∧ (∀ (α : Type) (orig : TimerArg → Int → α) (pageUrl now stackTxt : String)
        (st : CState) (f : Nat) (delay : Int),
      (wrappedSetInterval orig pageUrl now stackTxt st (TimerArg.fn f) delay).1 = st
      ∧ (wrappedSetInterval orig pageUrl now stackTxt st (TimerArg.fn f) delay).2
          = orig (TimerArg.fn f) delay) :=
  ⟨fun _ _ _ _ _ _ _ _ => ⟨rfl, rfl⟩,
   fun _ _ _ _ _ _ _ _ => ⟨rfl, rfl⟩,
   fun _ _ _ _ _ _ _ _ => ⟨rfl, rfl⟩,
   fun _ _ _ _ _ _ _ _ => ⟨rfl, rfl⟩⟩

/-- C9 counterexample: `hookRuntimeSinks` carries no installed-guard, so
running the installation twice double-wraps the evaluator slot — a single
invocation of the wrapped evaluator then appends two evidence records,
not exactly one as the claim states. -/
theorem reinstallation_not_guarded_counterexample :
    (invokeEvalSlot evalArithSum "u" "t" "k"
        (hookRuntimeSinks (hookRuntimeSinks (EvalSlotState.mk 0 initialState))).depth
        (hookRuntimeSinks (hookRuntimeSinks (EvalSlotState.mk 0 initialState))).st
        ["1+1"]).1.evidenceList.length = 2
    ∧ ¬ ((invokeEvalSlot evalArithSum "u" "t" "k"
        (hookRuntimeSinks (hookRuntimeSinks (EvalSlotState.mk 0 initialState))).depth
        (hookRuntimeSinks (hookRuntimeSinks (EvalSlotState.mk 0 initialState))).st
        ["1+1"]).1.evidenceList.length = 1) := by
  constructor
  · decide
  · decide

/-- C9 amended: the installation step is not guarded — every call to
`hookRuntimeSinks` adds one wrapper layer, and after k installations a
single invocation of the wrapped evaluator appends exactly k evidence
records, while still delegating so that the original operation runs
exactly once and its result is returned unchanged. -/
theorem reinstallation_layers (α : Type) (origEval : List String → α)
    (pageUrl now stackTxt : String) :
    (∀ st : CState, ∀ d : Nat,
      (hookRuntimeSinks (EvalSlotState.mk d st)).depth = d + 1)
    ∧ (∀ (d : Nat) (st : CState) (args : List String),
      (invokeEvalSlot origEval pageUrl now stackTxt d st args).2 = origEval args
      ∧ (invokeEvalSlot origEval pageUrl now stackTxt d st args).1.evidenceList.length
          = st.evidenceList.length + d) := by
  refine ⟨fun st d => rfl, ?_⟩
  intro d
  induction d with
  | zero => intro st args; exact ⟨rfl, rfl⟩
  | succ d ih =>
    intro st args
    refine ⟨(ih _ args).1, ?_⟩
    show (invokeEvalSlot origEval pageUrl now stackTxt d _ args).1.evidenceList.length
        = st.evidenceList.length + (d + 1)
    rw [(ih _ args).2, addEvidence_fst]
    dsimp only
    rw [List.length_append, List.length_singleton]
    omega

/-- Concrete element for the C7 witness: a button with one matching
event-handler attribute. -/
def eC7 : DomElement := DomElement.mk "BUTTON" [("onclick", "alert(1)")]

set_option maxRecDepth 8000 in
/-- C7 witness: the record emitted for the concrete button's `onclick`
attribute is in the emitted list and has the claimed shape. -/
theorem inline_event_handler_witness :
    (mkHandlerEvidence "u" "t" 0 eC7 "onclick" 1)
      ∈ handlerRecords "u" "t" 0 eC7 inlineEventAttrs
          initialState.evidenceIdCounter
    ∧ ((mkHandlerEvidence "u" "t" 0 eC7 "onclick" 1).type
          = "inline-event-handler"
      ∧ (mkHandlerEvidence "u" "t" 0 eC7 "onclick" 1).severity = "medium"
      ∧ ∃ a, a ∈ inlineEventAttrs ∧ hasAttribute eC7 a = true
        ∧ (mkHandlerEvidence "u" "t" 0 eC7 "onclick" 1).snippet
            = storedSnippet (some (a ++ "=\"" ++ getAttributeD eC7 a ++ "\""))
        ∧ (mkHandlerEvidence "u" "t" 0 eC7 "onclick" 1).location
            = Location.mk "u" (some (jsToLower eC7.tagName ++ "[" ++ a ++ "]"))
                (some 0) none none) :=
  ⟨by decide,
   (inline_event_handler_per_attribute "u" "t" 0 eC7 initialState).2.2 _
     (by decide)⟩

end XSSDetector
